import Mathlib

/-!
Verification development for the service startup module (`runner.py`).

The module is embedded shallowly:

* Certificate-store construction (`add_ca_to_certificates_store`,
  `generate_certificates_file`) is modelled over an explicit representation of
  PEM files.  A certificate is identified by its canonical encoded (DER) byte
  representation; two parsed certificates are equal exactly when those bytes
  are equal, which is how the external `cryptography` x509 objects compare.
  We represent that canonical identity as a natural number and keep, for every
  PEM block, both the raw file bytes that were read and the identity of the
  certificate they parse to.
* Reading and parsing an extra-CA file is fallible in the source
  (`open` raises `OSError`, `x509.load_pem_x509_certificate` raises
  `ValueError`); the embedding presents each extra-CA path together with the
  outcome of opening and parsing it, and the functions return `Except`,
  the error identifying the offending path.  Exception propagation out of the
  `for` loop of `generate_certificates_file` becomes `Except` short-circuiting.
* The TLS profile resolution helpers live in `ols.utils.tls` and
  `ols.constants`, which are outside the visible source file; they are
  modelled from the spec (each such definition says so in its doc comment).
* `start_uvicorn` becomes a pure function from the configuration to the
  argument record handed to `uvicorn.run`.
-/

/-- File contents, as a list of byte values. -/
abbrev Bytes := List Nat

/-- One PEM block of a certificate file: the raw bytes as stored in the file,
together with the canonical identity of the certificate they parse to
(`cert` stands for the canonical encoded byte representation; parsed
certificates are equal iff these agree). -/
structure PemEntry where
  raw : Bytes
  cert : Nat
deriving DecidableEq, Repr

/-- The certificates obtained by parsing a certificate store file, in order
(the behaviour of `x509.load_pem_x509_certificates` on a well-formed
concatenated PEM file). -/
def storeCerts (store : List PemEntry) : List Nat :=
  store.map PemEntry.cert

/-- The raw bytes of a certificate store file: the concatenation of the raw
bytes of its PEM blocks. -/
def fileBytes : List PemEntry → Bytes
  | [] => []
  | e :: rest => e.raw ++ fileBytes rest

/-- Outcome of opening and parsing one extra-CA path in the source:
`open(cert_path, "rb")` can raise `OSError` (`readError`),
`x509.load_pem_x509_certificate` can raise `ValueError` (`parseError`),
otherwise the file holds one PEM certificate block (`ok`). -/
inductive ReadResult where
  | readError (path : String)
  | parseError (path : String) (raw : Bytes)
  | ok (path : String) (entry : PemEntry)
deriving DecidableEq, Repr

/-- Whether opening or parsing this extra-CA path fails. -/
def ReadResult.isBad : ReadResult → Bool
  | .readError _ => true
  | .parseError _ _ => true
  | .ok _ _ => false

/-- The fatal trust-store build failure, identifying the offending path
(the propagated `OSError` / `ValueError` of the source). -/
inductive CertificateLoadError where
  | unreadable (path : String)
  | unparseable (path : String)
deriving DecidableEq, Repr

/-- The path an error identifies. -/
def CertificateLoadError.path : CertificateLoadError → String
  | .unreadable p => p
  | .unparseable p => p

/-- `add_ca_to_certificates_store` from `runner.py`: read and parse the
certificate at `cert_path` (here: the supplied `ReadResult`), parse the
current contents of the destination store, and either skip the new
certificate with a warning when an equal certificate is already present, or
append the raw bytes that were read to the end of the store.  The returned
`Bool` records whether the duplicate warning was emitted. -/
def add_ca_to_certificates_store (store : List PemEntry) (input : ReadResult) :
    Except CertificateLoadError (List PemEntry × Bool) :=
  match input with
  | .readError path => .error (.unreadable path)
  | .parseError path _ => .error (.unparseable path)
  | .ok _ entry =>
    let certifi_certs := storeCerts store
    if entry.cert ∈ certifi_certs then
      .ok (store, true)
    else
      .ok (store ++ [entry], false)

/-- `shutil.copyfile`: the destination file's contents become exactly the
source contents, overwriting whatever was there before. -/
def copyfile (src : List PemEntry) (prev : Bytes) : List PemEntry :=
  let _ := prev
  src

/-- The `for certificate_path in ols_config.extra_ca` loop of
`generate_certificates_file`: each iteration calls
`add_ca_to_certificates_store` on the current destination contents; an
exception aborts the loop. -/
def add_all (store : List PemEntry) : List ReadResult → Except CertificateLoadError (List PemEntry)
  | [] => .ok store
  | input :: rest =>
    match add_ca_to_certificates_store store input with
    | .error e => .error e
    | .ok (store2, _) => add_all store2 rest

/-- Modelled from the spec: `ols.constants.CERTIFICATE_STORAGE_FILENAME` is
not under `src/`; per §6 the trust-store filename is a fixed, well-known name
within the configured directory. -/
def CERTIFICATE_STORAGE_FILENAME : String := "certificates.crt"

/-- `os.path.join` for a directory and a filename. -/
def os_path_join (dir filename : String) : String :=
  dir ++ "/" ++ filename

/-- The observable result of `generate_certificates_file`: the path of the
destination file it wrote, the final contents of that file, and the value the
Python function returns (its signature is `-> None` and it has no `return`
statement, so this is always `none`). -/
structure GenerateResult where
  destination_file : String
  contents : List PemEntry
  ret : Option String
deriving DecidableEq, Repr

/-- `generate_certificates_file` from `runner.py`: compute the destination
path `certificate_directory/CERTIFICATE_STORAGE_FILENAME`, copy the certifi
base bundle over whatever the destination file held before (`prior`), then
add every extra-CA certificate in order. -/
def generate_certificates_file (prior : Bytes) (certifi_bundle : List PemEntry)
    (certificate_directory : String) (extra_ca : List ReadResult) :
    Except CertificateLoadError GenerateResult :=
  let destination_file := os_path_join certificate_directory CERTIFICATE_STORAGE_FILENAME
  let store := copyfile certifi_bundle prior
  match add_all store extra_ca with
  | .error e => .error e
  | .ok final => .ok { destination_file, contents := final, ret := none }

/-- The error raised for unrecognized or unmappable security-profile values
(the spec's `ConfigurationError` taxonomy entry). -/
structure ConfigurationError where
  message : String
deriving DecidableEq, Repr

/-- The concrete protocol-version enumeration consumed by the TLS layer
(`ssl.TLSVersion` values, plus the library default protocol constant). -/
inductive SSLVersion where
  | PROTOCOL_TLS_SERVER
  | TLSv1
  | TLSv1_1
  | TLSv1_2
  | TLSv1_3
deriving DecidableEq, Repr

/-- Modelled from the spec: `ols.constants.DEFAULT_SSL_VERSION` is not under
`src/`; per §4.2 it is the library/platform default minimum protocol
version, used when no security profile is configured. -/
def DEFAULT_SSL_VERSION : SSLVersion := .PROTOCOL_TLS_SERVER

/-- Modelled from the spec: `ols.constants.DEFAULT_SSL_CIPHERS` is not under
`src/`; per §4.2 it is the library/platform default cipher specification,
used when no security profile is configured. -/
def DEFAULT_SSL_CIPHERS : String := "TLSv1"

/-- The `tls_security_profile` configuration section: an optional named
profile (`profile_type`), an optional explicit minimum TLS version, and an
ordered cipher list that is meaningful for the custom profile. -/
structure SecurityProfile where
  profile_type : Option String
  min_tls_version : Option String
  ciphers : Option (List String)
deriving DecidableEq, Repr

/-- Modelled from the spec: the policy table of named profiles
(modern/intermediate/old) giving each profile's default minimum TLS version;
the custom profile has no policy default and `none` marks an unrecognized
profile type. -/
def profile_default_min_tls_version : String → Option String
  | "old" => some "VersionTLS10"
  | "intermediate" => some "VersionTLS12"
  | "modern" => some "VersionTLS13"
  | _ => none

/-- Whether a profile-type name is recognized by the policy tables. -/
def recognized_profile_type (ptype : String) : Bool :=
  ptype == "old" || ptype == "intermediate" || ptype == "modern" || ptype == "custom"

/-- Modelled from the spec: `ols.utils.tls.min_tls_version` is not under
`src/`; per §4.2 it derives the abstract minimum TLS version first from the
explicitly set `min_tls_version`, otherwise from the named profile's policy
default, and an unrecognized `profile_type` fails with `ConfigurationError`
(never a silent fallback). -/
def tls_min_tls_version (min_version : Option String) (ptype : String) :
    Except ConfigurationError String :=
  if recognized_profile_type ptype then
    match min_version with
    | some v => .ok v
    | none =>
      match profile_default_min_tls_version ptype with
      | some v => .ok v
      | none => .error { message := "no default minimum TLS version for profile " ++ ptype }
  else
    .error { message := "unrecognized TLS profile type " ++ ptype }

/-- Modelled from the spec: `ols.utils.tls.ssl_tls_version` is not under
`src/`; per §4.2 it maps the abstract minimum TLS version to the concrete
protocol-version enumeration value, and an unmapped value fails with
`ConfigurationError`. -/
def tls_ssl_tls_version (min_version : String) : Except ConfigurationError SSLVersion :=
  match min_version with
  | "VersionTLS10" => .ok .TLSv1
  | "VersionTLS11" => .ok .TLSv1_1
  | "VersionTLS12" => .ok .TLSv1_2
  | "VersionTLS13" => .ok .TLSv1_3
  | v => .error { message := "unmapped minimum TLS version " ++ v }

/-- Modelled from the spec: the fixed cipher policy of the named profiles
(order-preserving lists; the concrete suites stand in for the policy's). -/
def profile_ciphers : String → Option (List String)
  | "old" => some ["TLS_AES_128_GCM_SHA256", "ECDHE-RSA-AES128-SHA"]
  | "intermediate" => some ["TLS_AES_128_GCM_SHA256", "ECDHE-RSA-AES128-GCM-SHA256"]
  | "modern" => some ["TLS_AES_128_GCM_SHA256", "TLS_AES_256_GCM_SHA384", "TLS_CHACHA20_POLY1305_SHA256"]
  | _ => none

/-- Modelled from the spec: `ols.utils.tls.ciphers_as_string` is not under
`src/`; per §4.2 it takes the configured cipher list when the profile type is
custom and the named profile's fixed cipher policy otherwise, serialized into
an order-preserving separator-joined string; an unrecognized `profile_type`
fails with `ConfigurationError`. -/
def tls_ciphers_as_string (ciphers : Option (List String)) (ptype : String) :
    Except ConfigurationError String :=
  if ptype == "custom" then
    .ok (String.intercalate ":" (ciphers.getD []))
  else
    match profile_ciphers ptype with
    | some l => .ok (String.intercalate ":" l)
    | none => .error { message := "unrecognized TLS profile type " ++ ptype }

/-- `get_ssl_version` from `runner.py`: when the security profile is absent or
its `profile_type` is unset, return the library default SSL version;
otherwise resolve the minimum TLS version and map it to the concrete protocol
version, propagating any `ConfigurationError`. -/
def get_ssl_version (sec_profile : Option SecurityProfile) :
    Except ConfigurationError SSLVersion :=
  match sec_profile with
  | none => .ok DEFAULT_SSL_VERSION
  | some p =>
    match p.profile_type with
    | none => .ok DEFAULT_SSL_VERSION
    | some ptype =>
      match tls_min_tls_version p.min_tls_version ptype with
      | .error e => .error e
      | .ok min_tls => tls_ssl_tls_version min_tls

/-- `get_ciphers` from `runner.py`: when the security profile is absent or its
`profile_type` is unset, return the library default ciphers; otherwise
resolve the allowed ciphers from the profile, propagating any
`ConfigurationError`. -/
def get_ciphers (sec_profile : Option SecurityProfile) :
    Except ConfigurationError String :=
  match sec_profile with
  | none => .ok DEFAULT_SSL_CIPHERS
  | some p =>
    match p.profile_type with
    | none => .ok DEFAULT_SSL_CIPHERS
    | some ptype => tls_ciphers_as_string p.ciphers ptype

/-- The `dev_config` section used by `start_uvicorn`. -/
structure DevConfig where
  run_on_localhost : Bool
  disable_tls : Bool
deriving DecidableEq, Repr

/-- The `tls_config` section: the three fields can be `None`, which means they
are passed as `None` to `uvicorn.run`. -/
structure TLSConfig where
  tls_key_path : Option String
  tls_certificate_path : Option String
  tls_key_password : Option String
deriving DecidableEq, Repr

/-- The `logging_config` section: the numeric uvicorn log level. -/
structure LoggingConfig where
  uvicorn_log_level : Nat
deriving DecidableEq, Repr

/-- The `ols_config` fields read by `start_uvicorn`. -/
structure OLSConfig where
  tls_config : TLSConfig
  tls_security_profile : Option SecurityProfile
  logging_config : LoggingConfig
  max_workers : Option Nat
deriving DecidableEq, Repr

/-- The process-wide configuration object read by `start_uvicorn`. -/
structure Config where
  ols_config : OLSConfig
  dev_config : DevConfig
deriving DecidableEq, Repr

/-- `logging.INFO` of the Python standard library. -/
def logging_INFO : Nat := 20

/-- The keyword arguments `start_uvicorn` assembles for `uvicorn.run`. -/
structure UvicornArgs where
  app : String
  host : String
  port : Nat
  workers : Option Nat
  log_level : Nat
  ssl_keyfile : Option String
  ssl_certfile : Option String
  ssl_keyfile_password : Option String
  ssl_version : SSLVersion
  ssl_ciphers : String
  access_log : Bool
deriving DecidableEq, Repr

/-- `start_uvicorn` from `runner.py`: select host and port from `dev_config`,
read log level and TLS file settings from `ols_config`, resolve SSL version
and ciphers from the TLS security profile (propagating any
`ConfigurationError`), and call `uvicorn.run` with the assembled arguments. -/
def start_uvicorn (config : Config) : Except ConfigurationError UvicornArgs :=
  let host := if config.dev_config.run_on_localhost then "localhost" else "0.0.0.0"
  let port := if config.dev_config.disable_tls then 8080 else 8443
  let log_level := config.ols_config.logging_config.uvicorn_log_level
  let ssl_keyfile := config.ols_config.tls_config.tls_key_path
  let ssl_certfile := config.ols_config.tls_config.tls_certificate_path
  let ssl_keyfile_password := config.ols_config.tls_config.tls_key_password
  let sec_profile := config.ols_config.tls_security_profile
  match get_ssl_version sec_profile with
  | .error e => .error e
  | .ok ssl_version =>
    match get_ciphers sec_profile with
    | .error e => .error e
    | .ok ssl_ciphers =>
      .ok {
        app := "ols.app.main:app",
        host, port,
        workers := config.ols_config.max_workers,
        log_level,
        ssl_keyfile, ssl_certfile, ssl_keyfile_password,
        ssl_version, ssl_ciphers,
        access_log := decide (log_level < logging_INFO)
      }

/-- The error of a trust-store build identifies an extra-CA input that is in
fact unreadable (resp. unparseable). -/
def error_identifies (e : CertificateLoadError) (extra_ca : List ReadResult) : Prop :=
  match e with
  | .unreadable p => ReadResult.readError p ∈ extra_ca
  | .unparseable p => ∃ raw, ReadResult.parseError p raw ∈ extra_ca

/-- A concrete configuration used to evaluate the theorems on explicit
inputs: local development, TLS disabled, debug log level, one worker. -/
def cfgBase : Config :=
  { ols_config := {
      tls_config := { tls_key_path := some "/etc/certs/key.pem",
                      tls_certificate_path := some "/etc/certs/cert.pem",
                      tls_key_password := none },
      tls_security_profile := none,
      logging_config := { uvicorn_log_level := 10 },
      max_workers := some 1 },
    dev_config := { run_on_localhost := true, disable_tls := true } }

/-- The arguments `start_uvicorn` assembles for `cfgBase`. -/
def argsBase : UvicornArgs :=
  { app := "ols.app.main:app", host := "localhost", port := 8080,
    workers := some 1, log_level := 10,
    ssl_keyfile := some "/etc/certs/key.pem",
    ssl_certfile := some "/etc/certs/cert.pem",
    ssl_keyfile_password := none,
    ssl_version := DEFAULT_SSL_VERSION, ssl_ciphers := DEFAULT_SSL_CIPHERS,
    access_log := true }

theorem fileBytes_append (a b : List PemEntry) :
    fileBytes (a ++ b) = fileBytes a ++ fileBytes b := by
  induction a with
  | nil => simp [fileBytes]
  | cons e rest ih => simp [fileBytes, ih]

theorem error_identifies_cons (e : CertificateLoadError) (r : ReadResult)
    (extra_ca : List ReadResult) (h : error_identifies e extra_ca) :
    error_identifies e (r :: extra_ca) := by
  cases e with
  | unreadable p => exact List.mem_cons_of_mem r h
  | unparseable p =>
    obtain ⟨raw, hraw⟩ := h
    exact ⟨raw, List.mem_cons_of_mem r hraw⟩

theorem start_uvicorn_ok_inv (c : Config) (a : UvicornArgs)
    (h : start_uvicorn c = .ok a) :
    ∃ v s, get_ssl_version c.ols_config.tls_security_profile = .ok v
      ∧ get_ciphers c.ols_config.tls_security_profile = .ok s
      ∧ a = { app := "ols.app.main:app",
              host := if c.dev_config.run_on_localhost then "localhost" else "0.0.0.0",
              port := if c.dev_config.disable_tls then 8080 else 8443,
              workers := c.ols_config.max_workers,
              log_level := c.ols_config.logging_config.uvicorn_log_level,
              ssl_keyfile := c.ols_config.tls_config.tls_key_path,
              ssl_certfile := c.ols_config.tls_config.tls_certificate_path,
              ssl_keyfile_password := c.ols_config.tls_config.tls_key_password,
              ssl_version := v,
              ssl_ciphers := s,
              access_log := decide (c.ols_config.logging_config.uvicorn_log_level < logging_INFO) } := by
  cases hv : get_ssl_version c.ols_config.tls_security_profile with
  | error e => simp [start_uvicorn, hv] at h
  | ok v =>
    cases hc : get_ciphers c.ols_config.tls_security_profile with
    | error e => simp [start_uvicorn, hv, hc] at h
    | ok s =>
      simp only [start_uvicorn, hv, hc, Except.ok.injEq] at h
      exact ⟨v, s, rfl, rfl, h.symm⟩

/-- C3: for an extra certificate that reads and parses successfully, if the
parsed certificate is byte-identical to one already in the destination store
the call emits the duplicate warning and leaves the contents unchanged;
otherwise it appends exactly the raw bytes read from the extra certificate
file, so the destination file's bytes become the old bytes followed by the
new raw bytes. -/
theorem add_ca_skip_duplicate_or_append_raw
    (store : List PemEntry) (path : String) (entry : PemEntry) :
    add_ca_to_certificates_store store (.ok path entry)
      = (if entry.cert ∈ storeCerts store
         then .ok (store, true)
         else .ok (store ++ [entry], false))
    ∧ fileBytes (store ++ [entry]) = fileBytes store ++ entry.raw := by
  refine ⟨rfl, ?_⟩
  simp [fileBytes_append, fileBytes]

/-- C5: when the security profile is absent or its `profile_type` is unset,
`get_ssl_version` returns the library default SSL version and `get_ciphers`
returns the library default cipher specification; neither fails. -/
theorem absent_profile_uses_defaults (p : SecurityProfile)
    (h : p.profile_type = none) :
    get_ssl_version none = .ok DEFAULT_SSL_VERSION
    ∧ get_ciphers none = .ok DEFAULT_SSL_CIPHERS
    ∧ get_ssl_version (some p) = .ok DEFAULT_SSL_VERSION
    ∧ get_ciphers (some p) = .ok DEFAULT_SSL_CIPHERS := by
  refine ⟨rfl, rfl, ?_, ?_⟩ <;> simp [get_ssl_version, get_ciphers, h]

theorem absent_profile_uses_defaults_witness :
    SecurityProfile.profile_type { profile_type := none, min_tls_version := none, ciphers := none } = none
    ∧ get_ssl_version (some { profile_type := none, min_tls_version := none, ciphers := none })
        = .ok DEFAULT_SSL_VERSION :=
  ⟨rfl, (absent_profile_uses_defaults
            { profile_type := none, min_tls_version := none, ciphers := none } rfl).2.2.1⟩

/-- C10: the access log is enabled exactly when the configured uvicorn log
level is numerically strictly below `logging.INFO`: `start_uvicorn` passes
`access_log = (log_level < logging.INFO)` to the server launch. -/
theorem access_log_iff_below_info (c : Config) (a : UvicornArgs)
    (h : start_uvicorn c = .ok a) :
    a.access_log = decide (c.ols_config.logging_config.uvicorn_log_level < logging_INFO)
    ∧ a.log_level = c.ols_config.logging_config.uvicorn_log_level := by
  obtain ⟨v, s, _, _, rfl⟩ := start_uvicorn_ok_inv c a h
  exact ⟨rfl, rfl⟩

theorem access_log_iff_below_info_witness :
    start_uvicorn cfgBase = .ok argsBase
    ∧ argsBase.access_log = decide ((10 : Nat) < logging_INFO) :=
  ⟨rfl, (access_log_iff_below_info cfgBase argsBase rfl).1⟩

/-- C1: evaluation at the failing input.  The code's own comment says
"use workers=1 so config loaded can be accessed from other modules", yet
`start_uvicorn` passes the configured `max_workers` straight through to
`uvicorn.run`: with `max_workers = 4` the launch requests 4 workers, not 1. -/
theorem start_uvicorn_passes_configured_workers :
    (start_uvicorn
        { cfgBase with ols_config := { cfgBase.ols_config with max_workers := some 4 } }).map
        UvicornArgs.workers
      = .ok (some 4)
    ∧ (some 4 : Option Nat) ≠ some 1 := by
  refine ⟨rfl, ?_⟩
  decide

/-- C7 counterexample: with `run_on_localhost = true` and `disable_tls =
false` the flags are not both set, so the claim requires binding
`0.0.0.0:8443`; the code binds `localhost:8443`, because host and port are
selected independently. -/
theorem host_port_counterexample :
    (start_uvicorn
        { cfgBase with dev_config := { run_on_localhost := true, disable_tls := false } }).map
        (fun a => (a.host, a.port))
      = .ok ("localhost", 8443)
    ∧ ("localhost", (8443 : Nat)) ≠ ("0.0.0.0", (8443 : Nat)) := by
  refine ⟨rfl, ?_⟩
  decide

/-- C7 amended: the host depends only on the local-dev flag and the port only
on the TLS-disabled flag: `localhost` iff `run_on_localhost` is set, 8080 iff
`disable_tls` is set.  In particular both flags set gives `localhost:8080`
and both unset gives `0.0.0.0:8443`. -/
theorem host_port_selection (c : Config) (a : UvicornArgs)
    (h : start_uvicorn c = .ok a) :
    a.host = (if c.dev_config.run_on_localhost then "localhost" else "0.0.0.0")
    ∧ a.port = (if c.dev_config.disable_tls then 8080 else 8443) := by
  obtain ⟨v, s, _, _, rfl⟩ := start_uvicorn_ok_inv c a h
  exact ⟨rfl, rfl⟩

theorem host_port_selection_witness :
    start_uvicorn cfgBase = .ok argsBase
    ∧ argsBase.host = (if cfgBase.dev_config.run_on_localhost then "localhost" else "0.0.0.0")
    ∧ argsBase.port = (if cfgBase.dev_config.disable_tls then 8080 else 8443) :=
  ⟨rfl, host_port_selection cfgBase argsBase rfl⟩

/-- C8 counterexample: `generate_certificates_file` is annotated `-> None`
and has no `return` statement, so at this concrete input it returns `None`
and not the destination path the claim requires. -/
theorem generate_return_counterexample :
    (generate_certificates_file [] [] "/tmp/trust" []).map GenerateResult.ret = .ok none
    ∧ (none : Option String) ≠ some (os_path_join "/tmp/trust" CERTIFICATE_STORAGE_FILENAME) := by
  refine ⟨rfl, ?_⟩
  simp

/-- C8 amended: for every writable destination directory and sequence of
extra-CA inputs, the builder writes the file at `destination_dir` joined with
the fixed trust-store filename, but returns `None` rather than that path. -/
theorem generate_writes_fixed_destination (prior : Bytes) (certifi_bundle : List PemEntry)
    (dir : String) (extra_ca : List ReadResult) (res : GenerateResult)
    (h : generate_certificates_file prior certifi_bundle dir extra_ca = .ok res) :
    res.destination_file = os_path_join dir CERTIFICATE_STORAGE_FILENAME
    ∧ res.ret = none := by
  cases ha : add_all (copyfile certifi_bundle prior) extra_ca with
  | error e => simp [generate_certificates_file, ha] at h
  | ok final =>
    simp only [generate_certificates_file, ha, Except.ok.injEq] at h
    subst h
    exact ⟨rfl, rfl⟩

theorem generate_writes_fixed_destination_witness :
    generate_certificates_file [] [⟨[1], 1⟩] "/tmp/trust" []
      = .ok { destination_file := os_path_join "/tmp/trust" CERTIFICATE_STORAGE_FILENAME,
              contents := [⟨[1], 1⟩], ret := none }
    ∧ GenerateResult.destination_file
        { destination_file := os_path_join "/tmp/trust" CERTIFICATE_STORAGE_FILENAME,
          contents := [⟨[1], 1⟩], ret := none }
        = os_path_join "/tmp/trust" CERTIFICATE_STORAGE_FILENAME :=
  ⟨rfl, (generate_writes_fixed_destination [] [⟨[1], 1⟩] "/tmp/trust" [] _ rfl).1⟩

theorem storeCerts_append (a b : List PemEntry) :
    storeCerts (a ++ b) = storeCerts a ++ storeCerts b := by
  simp [storeCerts]

theorem add_ca_ok_of_not_mem (store : List PemEntry) (p : String) (entry : PemEntry)
    (h : entry.cert ∉ storeCerts store) :
    add_ca_to_certificates_store store (.ok p entry) = .ok (store ++ [entry], false) := by
  simp only [add_ca_to_certificates_store]
  rw [if_neg h]

theorem add_ca_ok_of_mem (store : List PemEntry) (p : String) (entry : PemEntry)
    (h : entry.cert ∈ storeCerts store) :
    add_ca_to_certificates_store store (.ok p entry) = .ok (store, true) := by
  simp only [add_ca_to_certificates_store]
  rw [if_pos h]

theorem add_all_error_of_bad (extra_ca : List ReadResult) :
    ∀ store, (∃ r ∈ extra_ca, r.isBad = true) →
    ∃ e, add_all store extra_ca = .error e ∧ error_identifies e extra_ca := by
  induction extra_ca with
  | nil => intro store h; simp at h
  | cons head rest ih =>
    intro store h
    cases head with
    | readError p =>
      exact ⟨.unreadable p, rfl, List.mem_cons_self _ _⟩
    | parseError p raw =>
      exact ⟨.unparseable p, rfl, raw, List.mem_cons_self _ _⟩
    | ok p entry =>
      have hrest : ∃ r ∈ rest, r.isBad = true := by
        rcases h with ⟨r, hr, hbad⟩
        rcases List.mem_cons.mp hr with rfl | hmem
        · simp [ReadResult.isBad] at hbad
        · exact ⟨r, hmem, hbad⟩
      by_cases hmem : entry.cert ∈ storeCerts store
      · obtain ⟨e, he, hid⟩ := ih store hrest
        refine ⟨e, ?_, error_identifies_cons e _ rest hid⟩
        simp [add_all, add_ca_to_certificates_store, hmem, he]
      · obtain ⟨e, he, hid⟩ := ih (store ++ [entry]) hrest
        refine ⟨e, ?_, error_identifies_cons e _ rest hid⟩
        simp [add_all, add_ca_to_certificates_store, hmem, he]

/-- C6: when any extra-CA input is unreadable or does not parse as a PEM
certificate, the trust-store build fails with a `CertificateLoadError` whose
path is that of an actually offending input — a fatal failure, never a
silent skip. -/
theorem generate_fails_on_bad_certificate (prior : Bytes) (certifi_bundle : List PemEntry)
    (dir : String) (extra_ca : List ReadResult)
    (h : ∃ r ∈ extra_ca, r.isBad = true) :
    ∃ e, generate_certificates_file prior certifi_bundle dir extra_ca = .error e
      ∧ error_identifies e extra_ca := by
  obtain ⟨e, he, hid⟩ := add_all_error_of_bad extra_ca (copyfile certifi_bundle prior) h
  exact ⟨e, by simp [generate_certificates_file, he], hid⟩

theorem generate_fails_on_bad_certificate_witness :
    (∃ r ∈ [ReadResult.readError "/etc/certs/corp-ca.pem"], r.isBad = true)
    ∧ ∃ e, generate_certificates_file [] [⟨[1], 1⟩] "/tmp/trust"
              [ReadResult.readError "/etc/certs/corp-ca.pem"]
            = .error e
        ∧ error_identifies e [ReadResult.readError "/etc/certs/corp-ca.pem"] :=
  ⟨⟨ReadResult.readError "/etc/certs/corp-ca.pem", List.mem_cons_self _ _, rfl⟩,
   generate_fails_on_bad_certificate [] [⟨[1], 1⟩] "/tmp/trust"
     [ReadResult.readError "/etc/certs/corp-ca.pem"]
     ⟨ReadResult.readError "/etc/certs/corp-ca.pem", List.mem_cons_self _ _, rfl⟩⟩

/-- C2: the trust-store build is idempotent.  Two runs with an identical base
bundle and extras into a clean directory agree bit for bit regardless of
anything the destination held before; with two distinct fresh extras the
destination holds the base bundle followed by both extras, with no duplicate
certificates; and with the same certificate given twice exactly one copy is
appended, because a certificate already present is never appended again. -/
theorem trust_store_idempotent_merge
    (prior prior2 : Bytes) (certifi_bundle : List PemEntry) (dir p1 p2 p3 p4 : String)
    (e1 e2 : PemEntry)
    (hB : (storeCerts certifi_bundle).Nodup)
    (h1 : e1.cert ∉ storeCerts certifi_bundle)
    (h2 : e2.cert ∉ storeCerts certifi_bundle)
    (h12 : e1.cert ≠ e2.cert) :
    generate_certificates_file prior certifi_bundle dir [.ok p1 e1, .ok p2 e2]
      = generate_certificates_file prior2 certifi_bundle dir [.ok p1 e1, .ok p2 e2]
    ∧ (generate_certificates_file prior certifi_bundle dir [.ok p1 e1, .ok p2 e2]).map
        GenerateResult.contents
        = .ok (certifi_bundle ++ [e1, e2])
    ∧ (storeCerts (certifi_bundle ++ [e1, e2])).Nodup
    ∧ (generate_certificates_file prior certifi_bundle dir [.ok p3 e1, .ok p4 e1]).map
        GenerateResult.contents
        = .ok (certifi_bundle ++ [e1]) := by
  refine ⟨rfl, ?_, ?_, ?_⟩
  · have hmem2 : e2.cert ∉ storeCerts (certifi_bundle ++ [e1]) := by
      rw [storeCerts_append]
      simp only [List.mem_append]
      rintro (hc | hc)
      · exact h2 hc
      · simp [storeCerts] at hc
        exact h12 hc.symm
    rw [show ([ReadResult.ok p1 e1, ReadResult.ok p2 e2])
          = [ReadResult.ok p1 e1] ++ [ReadResult.ok p2 e2] from rfl]
    simp [generate_certificates_file, add_all, copyfile, Except.map,
          add_ca_ok_of_not_mem certifi_bundle p1 e1 h1,
          add_ca_ok_of_not_mem (certifi_bundle ++ [e1]) p2 e2 hmem2]
  · have hsplit : storeCerts (certifi_bundle ++ [e1, e2])
        = storeCerts certifi_bundle ++ [e1.cert, e2.cert] := by
      simp [storeCerts]
    rw [hsplit, List.nodup_append]
    refine ⟨hB, by simp [h12], ?_⟩
    intro a ha hmem
    rcases List.mem_pair.mp hmem with rfl | rfl
    · exact h1 ha
    · exact h2 ha
  · have hmem : e1.cert ∈ storeCerts (certifi_bundle ++ [e1]) := by
      rw [storeCerts_append]
      simp [storeCerts]
    simp [generate_certificates_file, add_all, copyfile, Except.map,
          add_ca_ok_of_not_mem certifi_bundle p3 e1 h1,
          add_ca_ok_of_mem (certifi_bundle ++ [e1]) p4 e1 hmem]

theorem trust_store_idempotent_merge_witness :
    (storeCerts [⟨[1], 1⟩]).Nodup
    ∧ (2 : Nat) ∉ storeCerts [⟨[1], 1⟩]
    ∧ (3 : Nat) ∉ storeCerts [⟨[1], 1⟩]
    ∧ (2 : Nat) ≠ 3
    ∧ (generate_certificates_file [] [⟨[1], 1⟩] "/tmp/trust"
          [.ok "/a.pem" ⟨[2], 2⟩, .ok "/b.pem" ⟨[3], 3⟩]).map GenerateResult.contents
        = .ok ([⟨[1], 1⟩] ++ [⟨[2], 2⟩, ⟨[3], 3⟩]) :=
  ⟨by decide, by decide, by decide, by decide,
   (trust_store_idempotent_merge [] [] [⟨[1], 1⟩] "/tmp/trust" "/a.pem" "/b.pem" "/a.pem" "/a.pem"
      ⟨[2], 2⟩ ⟨[3], 3⟩ (by decide) (by decide) (by decide) (by decide)).2.1⟩

theorem unrecognized_no_ciphers (ptype : String)
    (h : recognized_profile_type ptype = false) :
    profile_ciphers ptype = none ∧ (ptype == "custom") = false := by
  simp only [recognized_profile_type, Bool.or_eq_false_iff, beq_eq_false_iff_ne] at h
  obtain ⟨⟨⟨h1, h2⟩, h3⟩, h4⟩ := h
  refine ⟨?_, beq_eq_false_iff_ne.mpr h4⟩
  unfold profile_ciphers
  split <;> simp_all

/-- C4 counterexample: the profile with recognized type "modern" and the
unmappable explicit minimum version "VersionTLS99" makes `get_ssl_version`
fail, yet `get_ciphers` succeeds with the modern cipher policy, because
`get_ciphers` never consults `min_tls_version`; so it is not the case that
both resolvers fail for every profile with an unmappable
`min_tls_version`. -/
theorem profile_resolution_counterexample :
    (get_ssl_version (some { profile_type := some "modern",
                             min_tls_version := some "VersionTLS99",
                             ciphers := none })).toOption = none
    ∧ (get_ciphers (some { profile_type := some "modern",
                           min_tls_version := some "VersionTLS99",
                           ciphers := none })).toOption
        = some "TLS_AES_128_GCM_SHA256:TLS_AES_256_GCM_SHA384:TLS_CHACHA20_POLY1305_SHA256" := by
  constructor <;> rfl

/-- C4 amended: a profile whose `profile_type` is an unrecognized name makes
both `get_ssl_version` and `get_ciphers` fail with a `ConfigurationError`,
never falling back to a default; and for a recognized profile type, an
explicitly set minimum TLS version that cannot be mapped makes
`get_ssl_version` fail with the mapping's `ConfigurationError`
(`get_ciphers` does not consult `min_tls_version`). -/
theorem unresolvable_profile_fails (p : SecurityProfile) (ptype : String)
    (hp : p.profile_type = some ptype) :
    (recognized_profile_type ptype = false →
      (∃ e, get_ssl_version (some p) = .error e)
      ∧ (∃ e, get_ciphers (some p) = .error e))
    ∧ (∀ v e, recognized_profile_type ptype = true →
        p.min_tls_version = some v →
        tls_ssl_tls_version v = .error e →
        get_ssl_version (some p) = .error e) := by
  constructor
  · intro hrec
    obtain ⟨hnone, hcustom⟩ := unrecognized_no_ciphers ptype hrec
    constructor
    · refine ⟨{ message := "unrecognized TLS profile type " ++ ptype }, ?_⟩
      simp [get_ssl_version, hp, tls_min_tls_version, hrec]
    · refine ⟨{ message := "unrecognized TLS profile type " ++ ptype }, ?_⟩
      simp [get_ciphers, hp, tls_ciphers_as_string, hcustom, hnone]
  · intro v e hrec hv he
    simp [get_ssl_version, hp, tls_min_tls_version, hrec, hv, he]

theorem unresolvable_profile_fails_witness :
    SecurityProfile.profile_type
        { profile_type := some "weird", min_tls_version := none, ciphers := none }
      = some "weird"
    ∧ recognized_profile_type "weird" = false
    ∧ (∃ e, get_ssl_version
          (some { profile_type := some "weird", min_tls_version := none, ciphers := none })
        = .error e) :=
  ⟨rfl, rfl,
   ((unresolvable_profile_fails
       { profile_type := some "weird", min_tls_version := none, ciphers := none }
       "weird" rfl).1 rfl).1⟩

/-- C9: the TLS arguments assembled for the server launch do not depend on
the `disable_tls` flag — for two configurations that agree on everything
except `disable_tls`, the assembled launches agree on every argument except
the port, the five TLS arguments in particular, and each port is 8080 when
`disable_tls` is set and 8443 otherwise. -/
theorem tls_args_independent_of_disable_tls (c1 c2 : Config)
    (ho : c1.ols_config = c2.ols_config)
    (hl : c1.dev_config.run_on_localhost = c2.dev_config.run_on_localhost) :
    (start_uvicorn c1).map (fun a => { a with port := 0 })
      = (start_uvicorn c2).map (fun a => { a with port := 0 })
    ∧ (start_uvicorn c1).map UvicornArgs.ssl_keyfile
        = (start_uvicorn c2).map UvicornArgs.ssl_keyfile
    ∧ (start_uvicorn c1).map UvicornArgs.ssl_certfile
        = (start_uvicorn c2).map UvicornArgs.ssl_certfile
    ∧ (start_uvicorn c1).map UvicornArgs.ssl_keyfile_password
        = (start_uvicorn c2).map UvicornArgs.ssl_keyfile_password
    ∧ (start_uvicorn c1).map UvicornArgs.ssl_version
        = (start_uvicorn c2).map UvicornArgs.ssl_version
    ∧ (start_uvicorn c1).map UvicornArgs.ssl_ciphers
        = (start_uvicorn c2).map UvicornArgs.ssl_ciphers
    ∧ (∀ a, start_uvicorn c1 = .ok a →
        a.port = if c1.dev_config.disable_tls then 8080 else 8443)
    ∧ (∀ a, start_uvicorn c2 = .ok a →
        a.port = if c2.dev_config.disable_tls then 8080 else 8443) := by
  have hports1 : ∀ a, start_uvicorn c1 = .ok a →
      a.port = if c1.dev_config.disable_tls then 8080 else 8443 := by
    intro a ha
    obtain ⟨v, s, _, _, rfl⟩ := start_uvicorn_ok_inv c1 a ha
    rfl
  have hports2 : ∀ a, start_uvicorn c2 = .ok a →
      a.port = if c2.dev_config.disable_tls then 8080 else 8443 := by
    intro a ha
    obtain ⟨v, s, _, _, rfl⟩ := start_uvicorn_ok_inv c2 a ha
    rfl
  rcases c1 with ⟨o1, d1⟩
  rcases c2 with ⟨o2, d2⟩
  dsimp at ho hl
  subst ho
  cases hv : get_ssl_version o1.tls_security_profile with
  | error e =>
    refine ⟨?_, ?_, ?_, ?_, ?_, ?_, hports1, hports2⟩ <;> simp [start_uvicorn, hv]
  | ok v =>
    cases hc : get_ciphers o1.tls_security_profile with
    | error e =>
      refine ⟨?_, ?_, ?_, ?_, ?_, ?_, hports1, hports2⟩ <;> simp [start_uvicorn, hv, hc]
    | ok s =>
      refine ⟨?_, ?_, ?_, ?_, ?_, ?_, hports1, hports2⟩ <;>
        simp [start_uvicorn, hv, hc, hl, Except.map]

theorem tls_args_independent_of_disable_tls_witness :
    cfgBase.ols_config
        = ({ cfgBase with
             dev_config := { run_on_localhost := true, disable_tls := false } } : Config).ols_config
    ∧ (start_uvicorn cfgBase).map (fun a => { a with port := 0 })
        = (start_uvicorn
            { cfgBase with
              dev_config := { run_on_localhost := true, disable_tls := false } }).map
            (fun a => { a with port := 0 }) :=
  ⟨rfl,
   (tls_args_independent_of_disable_tls cfgBase
      { cfgBase with dev_config := { run_on_localhost := true, disable_tls := false } }
      rfl rfl).1⟩
